import Mathlib

/-!
Shallow embedding of the bee.lua subprocess module.

The repository carries two revisions of the Lua binding layer:
* `src/unnamed/part_000` — the current binding (`bee::lua_subprocess`):
  `spawn::spawn`, `spawn::cast_args`, `spawn::cast_stdio`, `spawn::cast_env`,
  `process::wait/kill/get_id`, `process::process_detach`/`mt_gc`, `peek`;
* `src/binding/binding_subprocess.cpp` — the legacy binding with its own
  `spawn::spawn`, `spawn::cast_args`, `spawn::cast_stdio`, `process::*`, `peek`.

The process/pipe engine itself (`bee/subprocess/subprocess_posix.cpp`,
`envbuilder`, `pipe::peek`, `process::wait/kill` bodies) is not under `src/`
(only the header `src/unnamed/part_001` and the binding callers are), so those
primitives are modelled from the spec; each such definition is marked
`Modelled from the spec:` in its doc comment.  Everything else is translated
directly from the two C++ binding files.
-/

namespace BeeSubprocess

/-- A Lua value appearing in the `env` table: the binding only distinguishes
string values (`LUA_TSTRING`, part_000 line 303) from everything else. -/
inductive LuaVal where
  | str (s : String)
  | other
  deriving DecidableEq, Repr

/-- One node of the argument table: the array part holds strings or nested
tables of arguments (`cast_args_array`, part_000 lines 184-206; legacy
`cast_args`, binding_subprocess.cpp lines 129-142). -/
inductive ArgNode where
  | str (s : String)
  | list (xs : List ArgNode)

mutual
/-- Flattening of the argument table into the argument vector, as performed by
`spawn::cast_args_array` (part_000 lines 184-206): strings are pushed, nested
tables are flattened recursively, in array order.  The legacy
`spawn::cast_args` (binding_subprocess.cpp lines 129-148) flattens the same
way on this domain. -/
def cast_args : List ArgNode → List String
  | [] => []
  | n :: ns => cast_args_node n ++ cast_args ns

def cast_args_node : ArgNode → List String
  | .str s => [s]
  | .list xs => cast_args xs
end

/-- The value found in one of the `stdin`/`stdout`/`stderr` fields of the
spawn option table, as discriminated by `lua_getfield` in `cast_stdio`
(part_000 lines 240-288). -/
inductive StdioOpt where
  | unset
  /-- `LUA_TUSERDATA`: a file object with underlying handle `h`;
  `closed = true` means its `closef` is null (already closed). -/
  | file (h : Nat) (closed : Bool)
  /-- `LUA_TBOOLEAN` true: request a fresh pipe. -/
  | pipeReq
  /-- `LUA_TBOOLEAN` false (ignored like `unset`). -/
  | boolFalse
  /-- `LUA_TSTRING`. -/
  | str (s : String)
  deriving DecidableEq, Repr

/-- The spawn option table, after the Lua-glue field reads. -/
structure SpawnCfg where
  args : List ArgNode
  cwd : Option String
  /-- the `env` field: `none` when absent/not a table, otherwise the traversed
  key/value pairs (Lua table keys are unique). -/
  env : Option (List (String × LuaVal))
  sIn : StdioOpt
  sOut : StdioOpt
  sErr : StdioOpt
  suspended : Bool
  detached : Bool

/-- Modelled from the spec: the OS facilities the engine invokes, whose
implementations (`subprocess_posix.cpp` / `subprocess_win.cpp`) are not under
`src/`.  `execResult` is the outcome the process-creation primitive would
report if invoked (`some pid` on success); `errMsg` the OS error message
`make_syserror` would capture; `pipeOpen` the outcome of `pipe::open`;
`dup` the handle duplication `file_handle::dup`; `delivered` whether a signal
request to a pid is accepted by the OS (`::kill` returning 0), independent of
whether the process has died; `waitStatus` the exit status the OS reports for
an exited child. -/
structure OS where
  execResult : Option Nat
  errMsg : String
  pipeOpen : Option (Nat × Nat)
  fdopenOk : Bool
  dup : Nat → Nat
  delivered : Nat → Int → Bool
  waitStatus : Nat → Nat

/-- Resolution of a single stdio slot: `spawn::cast_stdio` (first overload,
part_000 lines 240-288).  Returns the resolved `file_handle` (`none` models
the empty handle `{}`).  `handle` is the already-resolved stdout handle passed
when `name = "stderr"` (part_000 line 390). -/
def cast_stdio (os : OS) (name : String) (opt : StdioOpt) (handle : Option Nat) :
    Option Nat :=
  match opt with
  | .file h closed =>
    if closed then none else some (os.dup h)
  | .pipeReq =>
    match os.pipeOpen with
    | none => none
    | some (rd, wr) =>
      if os.fdopenOk then (if name = "stdin" then some rd else some wr) else none
  | .str s =>
    if name = "stderr" ∧ s = "stdout" ∧ handle.isSome then handle else none
  | .unset => none
  | .boolFalse => none

/-- Resolution of a single stdio slot by the legacy binding
(`spawn::cast_stdio`, binding_subprocess.cpp lines 150-179): a file userdata
yields its raw `FILE*` (no duplication, no closed-handle check), a true
boolean opens a pipe, everything else — including strings, so no
stderr-to-stdout aliasing — falls to the default and yields null. -/
def binding_cast_stdio (os : OS) (name : String) (opt : StdioOpt) : Option Nat :=
  match opt with
  | .file h _ => some h
  | .pipeReq =>
    match os.pipeOpen with
    | none => none
    | some (rd, wr) => if name = "stdin" then some rd else some wr
  | _ => none

/-- The three resolved child stream bindings accumulated by
`spawn.redirect` (`fds_` in the header, part_001 line 66): `none` means the
slot was never redirected and the child inherits the parent stream. -/
structure Redirections where
  eInput : Option Nat
  eOutput : Option Nat
  eError : Option Nat
  deriving DecidableEq, Repr

/-- The stdio resolution sequence of `spawn::spawn` (part_000 lines 388-390):
stdin, then stdout, then stderr with the resolved stdout handle offered for
aliasing; each resolved handle is both redirected into the child slot and
retained for the caller (second `cast_stdio` overload, lines 290-296). -/
def resolve_stdio (os : OS) (cfg : SpawnCfg) : Redirections :=
  let fIn := cast_stdio os "stdin" cfg.sIn none
  let fOut := cast_stdio os "stdout" cfg.sOut none
  let fErr := cast_stdio os "stderr" cfg.sErr fOut
  ⟨fIn, fOut, fErr⟩

/-- A process handle (`bee::subprocess::process`, header part_001 lines
37-49): the OS pid and, modelled from the spec, the cached exit status
(`exit_status` is fetched at most effectively once; the old header's
`int status` field is this cache). -/
structure Process where
  pid : Nat
  exited : Option Nat
  deriving DecidableEq, Repr

/-- `process::get_id` (part_000 lines 78-82 push the engine's `get_id()`,
which returns the stored pid). -/
def Process.get_id (p : Process) : Nat := p.pid

/-- What a call to the module-level `spawn` returns to Lua:
`nothing` models `return 0` (no values), `fail msg` models
`nil` plus an error-message string, `ok` models a process-handle userdata
(with the child redirections that were applied and the parent-retained
stdio files stored on it, part_000 lines 396-408). -/
inductive SpawnResult where
  | nothing
  | fail (msg : String)
  | ok (p : Process) (redirs : Redirections)
      (fIn fOut fErr : Option Nat)
  deriving DecidableEq, Repr

/-- `spawn::spawn` of the current binding (part_000 lines 374-410).
The second component is the trace of argument vectors passed to the OS
process-creation primitive (`spawn.exec`): an empty trace means the
primitive was never invoked.  An empty flattened argument list returns
no values before any engine call (lines 378-380); an `exec` failure returns
`nil` plus `make_syserror("subprocess::spawn")` (lines 391-395); on success a
process handle is constructed from the spawn (line 396). -/
def lua_spawn (os : OS) (cfg : SpawnCfg) : SpawnResult × List (List String) :=
  let args := cast_args cfg.args
  if args.length = 0 then
    (.nothing, [])
  else
    let r := resolve_stdio os cfg
    match os.execResult with
    | none => (.fail ("subprocess::spawn: " ++ os.errMsg), [args])
    | some pid => (.ok ⟨pid, none⟩ r r.eInput r.eOutput r.eError, [args])

/-- `spawn::spawn` of the legacy binding (binding_subprocess.cpp lines
235-271): argument lists of length at most one return no values before any
engine call (lines 240-242), and an `exec` failure also returns no values
(lines 264-266) — no error message is pushed. -/
def binding_spawn (os : OS) (cfg : SpawnCfg) : SpawnResult × List (List String) :=
  let args := cast_args cfg.args
  if args.length ≤ 1 then
    (.nothing, [])
  else
    let fIn := binding_cast_stdio os "stdin" cfg.sIn
    let fOut := binding_cast_stdio os "stdout" cfg.sOut
    let fErr := binding_cast_stdio os "stderr" cfg.sErr
    match os.execResult with
    | none => (.nothing, [args])
    | some pid => (.ok ⟨pid, none⟩ ⟨fIn, fOut, fErr⟩ fIn fOut fErr, [args])

/-- Modelled from the spec: `process::wait` of the engine (its body,
`subprocess_posix.cpp`, is not under `src/`; the old header part_001 declares
`uint32_t wait()` with the `int status` cache field).  Per the spec the exit
status is fetched at most effectively once from the OS and cached on the
handle: a cached status is returned directly, otherwise the OS is queried
once and the result cached.  Returns the status, the updated handle, and
whether the OS was queried by this call. -/
def Process.wait (os : OS) (p : Process) : Nat × Process × Bool :=
  match p.exited with
  | some st => (st, p, false)
  | none =>
    let st := os.waitStatus p.pid
    (st, { p with exited := some st }, true)

/-- The default signal of the kill binding: `SIGTERM`, whose POSIX value 15
is also the literal default of the legacy binding
(binding_subprocess.cpp line 57, `luaL_optinteger(L, 2, 15)`). -/
def SIGTERM : Int := 15

/-- `process::kill` of the current binding (part_000 lines 70-76): the
optional second argument defaults to `SIGTERM`
(`lua::optinteger<int, SIGTERM>`), and the boolean pushed is the engine's
delivery result (modelled from the spec as `os.delivered`: whether the OS
accepted the signal request, not whether the process has died — the result
does not consult the handle's exit state). -/
def lua_kill (os : OS) (p : Process) (signum : Option Int) : Bool :=
  os.delivered p.pid (signum.getD SIGTERM)

/-- An observable Lua-level side effect of the binding: a non-fatal warning
(`lua_warning`) or a raised Lua error. -/
inductive LuaEffect where
  | warn (msg : String)
  | raise (msg : String)
  deriving DecidableEq, Repr

/-- The warning text pushed by `process_detach`
(part_000 line 38, `"subprocess(%d) may become a zombie process"`). -/
def zombieMsg (pid : Nat) : String :=
  "subprocess(" ++ toString pid ++ ") may become a zombie process"

/-- `process::process_detach` (part_000 lines 36-42): attempts
`process.detach()` (engine body not under `src/`; its outcome is the
`detachOk` argument) and, when that fails, emits the zombie warning through
`lua_warning` — a diagnostic, not an error. -/
def process_detach (detachOk : Bool) (pid : Nat) : List LuaEffect :=
  if detachOk then [] else [.warn (zombieMsg pid)]

/-- `process::mt_gc` (part_000 lines 50-55): runs `process_detach` and then
the in-place destructor, which adds no Lua-level effect. -/
def mt_gc (detachOk : Bool) (pid : Nat) : List LuaEffect :=
  process_detach detachOk pid

/-- `process::mt_close` (part_000 lines 44-48): runs `process_detach` only. -/
def mt_close (detachOk : Bool) (pid : Nat) : List LuaEffect :=
  process_detach detachOk pid

/-- The state of a stream passed to `peek`: whether the Lua file object is
still open (`closef` non-null, part_000 line 430), and — for the underlying
OS pipe, modelled from the spec — whether it is a readable pipe the OS can
query, whether the writer side is gone, and how many bytes sit in the pipe
buffer. -/
structure PipeStream where
  closef : Bool
  readable : Bool
  writerClosed : Bool
  buffered : Nat
  deriving DecidableEq, Repr

/-- Modelled from the spec: the engine's `pipe::peek` (body not under
`src/`; header part_001 line 33 declares `int peek(FILE*)`).  It reports the
byte count available without blocking, `-1` (a negative sentinel) when the
stream is not a readable pipe the OS can query or has been closed, and `0`
— not an error — on a broken pipe with no buffered bytes. -/
def pipe_peek (s : PipeStream) : Int :=
  if s.closef ∧ s.readable then (s.buffered : Int) else -1

/-- What the module-level `peek` returns to Lua: a byte count, or `nil` plus
an error message. -/
inductive PeekResult where
  | count (n : Int)
  | err (msg : String)
  deriving DecidableEq, Repr

/-- `peek` of the current binding (part_000 lines 428-446): a closed file
object (`!p->closef`) yields `nil` plus a broken-pipe error; a negative
engine count yields `nil` plus `make_syserror("subprocess::peek")`;
otherwise the count is pushed. -/
def lua_peek (s : PipeStream) : PeekResult :=
  if ¬s.closef then
    .err "subprocess::peek: broken pipe"
  else
    let n := pipe_peek s
    if n < 0 then .err "subprocess::peek: syserror"
    else .count n

/-- `peek` of the legacy binding (binding_subprocess.cpp lines 274-278):
the engine's raw count — negative sentinels included — is pushed directly
as the integer result. -/
def binding_peek (s : PipeStream) : Int :=
  pipe_peek s

/-- `spawn::cast_env` of the current binding (part_000 lines 298-314):
the traversal is seeded with `lua_pushnil` (line 301), so `lua_next` walks
the `env` table; string values become `builder.set(key, value)`, anything
else becomes `builder.del(key)`.  Returns the accumulated (sets, deletions)
diff. -/
def cast_env : Option (List (String × LuaVal)) → List (String × String) × List String
  | none => ([], [])
  | some es =>
    es.foldr
      (fun e acc =>
        match e.2 with
        | .str v => ((e.1, v) :: acc.1, acc.2)
        | .other => (acc.1, e.1 :: acc.2))
      ([], [])

/-- `spawn::cast_env` of the legacy binding (binding_subprocess.cpp lines
181-195): when the `env` field is a table, the traversal is seeded with
`lua_next(L, 1)` (line 183) while the env table sits on top of the stack,
so the env table object itself is used as the previous key into the
*options* table at index 1.  A table value is never a key of the options
table, and Lua's `next` raises `invalid key to 'next'` for an absent
non-nil key — so for any present env table the legacy binding raises a Lua
error and never reaches the `env_set`/`env_del` loop body; only an absent
(or non-table) `env` field passes through, contributing an empty diff. -/
def binding_cast_env :
    Option (List (String × LuaVal)) →
      Except String (List (String × String) × List String)
  | none => .ok ([], [])
  | some _ => .error "invalid key to 'next'"

/-- Modelled from the spec: the Environment Builder's `release`
(`envbuilder`, engine body not under `src/`): the child environment is the
parent environment snapshot plus the overrides minus the deletions, computed
once at spawn time from the snapshot — never a live view of the parent. -/
def env_apply (parent : String → Option String)
    (sets : List (String × String)) (dels : List String) :
    String → Option String :=
  fun k =>
    if k ∈ dels then none
    else
      match sets.lookup k with
      | some v => some v
      | none => parent k

/-- The child environment produced by a spawn configuration: `cast_env`
followed by the builder release over the parent snapshot
(part_000 line 313, `self.env(builder.release())`). -/
def child_env (parent : String → Option String) (cfg : SpawnCfg) :
    String → Option String :=
  env_apply parent (cast_env cfg.env).1 (cast_env cfg.env).2

/-- A concrete OS behavior, for evaluating the model on sample inputs:
process creation succeeds with pid 42. -/
def sampleOS : OS where
  execResult := some 42
  errMsg := "No such file or directory"
  pipeOpen := some (3, 4)
  fdopenOk := true
  dup := fun h => h + 10
  delivered := fun _ _ => true
  waitStatus := fun _ => 0

/-- A concrete OS behavior whose process-creation primitive fails. -/
def sampleOSFail : OS :=
  { sampleOS with execResult := none }

/-- A spawn configuration with the given argument table and every other
option absent (all three stdio slots inherit). -/
def inheritCfg (args : List ArgNode) : SpawnCfg where
  args := args
  cwd := none
  env := none
  sIn := .unset
  sOut := .unset
  sErr := .unset
  suspended := false
  detached := false

/-- The `env` table of the C8 scenario: override `FOO` to `"bar"` and delete
`BAZ` (a non-string value makes `cast_env` call `builder.del`). -/
def envFooBaz : List (String × LuaVal) :=
  [("FOO", .str "bar"), ("BAZ", .other)]

/-- A concrete parent environment snapshot. -/
def sampleParent : String → Option String := fun k =>
  if k = "BAZ" then some "old" else if k = "PATH" then some "/bin" else none

end BeeSubprocess

namespace BeeSubprocess

/-- **C1.** For every spawn configuration whose (flattened) argument list is
empty, both spawn bindings return no process handle and the trace of OS
process-creation calls is empty — the primitive is never invoked, so no
process-table side effect occurs.  (part_000 lines 378-380 and
binding_subprocess.cpp lines 240-242 both return before `spawn.exec`.) -/
theorem spawn_empty_args_no_exec (os : OS) (cfg : SpawnCfg)
    (h : cast_args cfg.args = []) :
    lua_spawn os cfg = (.nothing, []) ∧ binding_spawn os cfg = (.nothing, []) := by
  constructor
  · simp [lua_spawn, h]
  · simp [binding_spawn, h]

/-- Witness for C1: the empty argument table. -/
theorem spawn_empty_args_no_exec_witness :
    lua_spawn sampleOS (inheritCfg []) = (.nothing, []) ∧
      binding_spawn sampleOS (inheritCfg []) = (.nothing, []) :=
  spawn_empty_args_no_exec sampleOS (inheritCfg []) (by simp [cast_args, inheritCfg])

/-- **C2 counterexample.** A valid argument list of exactly one string, with
an OS whose creation primitive would succeed with positive pid 42: the
legacy `spawn::spawn` (binding_subprocess.cpp lines 240-242, `args.size()
<= 1`) returns no process handle and never invokes the primitive — refuting
the claim that every valid non-empty argument list yields a handle. -/
theorem binding_spawn_single_arg_counterexample :
    sampleOS.execResult = some 42 ∧ 0 < 42 ∧
      cast_args [ArgNode.str "ls"] = ["ls"] ∧
      binding_spawn sampleOS (inheritCfg [ArgNode.str "ls"]) = (.nothing, []) := by
  refine ⟨rfl, by norm_num, by simp [cast_args, cast_args_node], ?_⟩
  simp [binding_spawn, inheritCfg, cast_args, cast_args_node]

/-- **C2 (amended).** For every valid non-empty argument list with all three
stdio slots inheriting and a succeeding OS creation primitive reporting a
positive pid, the current binding's `spawn::spawn` (part_000 lines 374-396)
returns a process handle whose `get_id()` is that positive pid; the legacy
binding additionally requires at least two arguments — with exactly one it
returns no handle without invoking the OS primitive. -/
theorem spawn_nonempty_inherit_ok (os : OS) (cfg : SpawnCfg) (pid : Nat)
    (hargs : cast_args cfg.args ≠ [])
    (hIn : cfg.sIn = .unset) (hOut : cfg.sOut = .unset) (hErr : cfg.sErr = .unset)
    (hexec : os.execResult = some pid) (hpid : 0 < pid) :
    lua_spawn os cfg =
      (.ok ⟨pid, none⟩ ⟨none, none, none⟩ none none none, [cast_args cfg.args]) ∧
      0 < (Process.mk pid none).get_id ∧
      ((cast_args cfg.args).length = 1 → binding_spawn os cfg = (.nothing, [])) := by
  refine ⟨?_, hpid, ?_⟩
  · simp [lua_spawn, resolve_stdio, cast_stdio, hIn, hOut, hErr, hexec,
      List.length_eq_zero, hargs]
  · intro hlen
    simp [binding_spawn, hlen]

/-- Witness for C2 (amended): the one-string argument list under
`sampleOS`, which succeeds through the current binding. -/
theorem spawn_nonempty_inherit_ok_witness :
    lua_spawn sampleOS (inheritCfg [ArgNode.str "ls"]) =
      (.ok ⟨42, none⟩ ⟨none, none, none⟩ none none none, [["ls"]]) ∧
      0 < (Process.mk 42 none).get_id := by
  have h := spawn_nonempty_inherit_ok sampleOS (inheritCfg [ArgNode.str "ls"]) 42
    (by simp [inheritCfg, cast_args, cast_args_node]) rfl rfl rfl rfl (by norm_num)
  have harr : cast_args (inheritCfg [ArgNode.str "ls"]).args = ["ls"] := by
    simp [inheritCfg, cast_args, cast_args_node]
  exact ⟨by rw [h.1, harr], h.2.1⟩

/-- **C3.** For every process handle, a second `wait()` returns the very
status the first call returned, on the same handle state, and does not query
the OS again (third component `false`): the exit status is fetched from the
OS effectively once and cached, so the second call returns immediately and
cannot error.  (`process::wait` modelled from the spec; the Lua binding,
part_000 lines 57-68, pushes the status it yields.) -/
theorem wait_twice_cached (os : OS) (p : Process) :
    (Process.wait os (Process.wait os p).2.1).1 = (Process.wait os p).1 ∧
      (Process.wait os (Process.wait os p).2.1).2.2 = false ∧
      (Process.wait os (Process.wait os p).2.1).2.1 = (Process.wait os p).2.1 := by
  cases h : p.exited <;> simp [Process.wait, h]

/-- **C5 counterexample.** A spawn attempt whose OS creation primitive fails
(`sampleOSFail`): the legacy `spawn::spawn` (binding_subprocess.cpp lines
264-266) invoked the primitive (trace `[["ls", "-l"]]`) and then returned
no values — nothing is surfaced, no error message — refuting the claim that
every failing spawn surfaces a structured error. -/
theorem binding_spawn_exec_fail_counterexample :
    sampleOSFail.execResult = none ∧
      binding_spawn sampleOSFail (inheritCfg [ArgNode.str "ls", ArgNode.str "-l"]) =
        (.nothing, [["ls", "-l"]]) := by
  refine ⟨rfl, ?_⟩
  simp [binding_spawn, inheritCfg, cast_args, cast_args_node, sampleOSFail, sampleOS]

/-- **C5 (amended).** For every spawn attempt whose OS creation primitive
fails, the current binding's `spawn::spawn` (part_000 lines 391-395) surfaces
`nil` plus an error message carrying the underlying OS error string (and in
the model no process exists, the primitive having failed); the legacy binding
instead returns no values at all. -/
theorem spawn_exec_fail_error (os : OS) (cfg : SpawnCfg)
    (hargs : cast_args cfg.args ≠ []) (hexec : os.execResult = none) :
    (lua_spawn os cfg).1 = .fail ("subprocess::spawn: " ++ os.errMsg) ∧
      (1 < (cast_args cfg.args).length → (binding_spawn os cfg).1 = .nothing) := by
  constructor
  · simp [lua_spawn, hexec, List.length_eq_zero, hargs]
  · intro hlen
    simp [binding_spawn, hexec, Nat.not_le.mpr hlen, Nat.lt_asymm hlen]

/-- Witness for C5 (amended): spawning `ls -l` under the failing OS yields
`nil` plus the OS message. -/
theorem spawn_exec_fail_error_witness :
    (lua_spawn sampleOSFail (inheritCfg [ArgNode.str "ls", ArgNode.str "-l"])).1 =
      .fail "subprocess::spawn: No such file or directory" := by
  have h := spawn_exec_fail_error sampleOSFail
    (inheritCfg [ArgNode.str "ls", ArgNode.str "-l"])
    (by simp [inheritCfg, cast_args, cast_args_node]) rfl
  simpa [sampleOSFail, sampleOS] using h.1

/-- **C4 counterexample.** A stream whose file object is open but which is
not a readable pipe the OS can query: the legacy `peek`
(binding_subprocess.cpp lines 274-278) pushes the engine's raw count `-1`,
a negative count in the public interface — refuting the claim that such a
stream always yields an error value rather than a negative count. -/
theorem binding_peek_negative_counterexample :
    binding_peek ⟨true, false, false, 0⟩ = -1 ∧ (-1 : Int) < 0 := by
  constructor
  · simp [binding_peek, pipe_peek]
  · norm_num

/-- **C4 (amended).** For every stream passed to the current binding's `peek`
(part_000 lines 428-446): a closed stream yields an error value; an open
stream that is not a readable pipe yields an error value; every count it
returns is non-negative; and a broken pipe (writer gone) with no buffered
bytes yields the count 0, not an error.  The legacy binding's `peek` instead
forwards the engine's raw count, negative sentinel included. -/
theorem lua_peek_contract (s : PipeStream) :
    (¬s.closef → lua_peek s = .err "subprocess::peek: broken pipe") ∧
      (s.closef → ¬s.readable → lua_peek s = .err "subprocess::peek: syserror") ∧
      (∀ n, lua_peek s = .count n → 0 ≤ n) ∧
      (s.closef → s.readable → s.writerClosed → s.buffered = 0 →
        lua_peek s = .count 0) ∧
      (s.closef → ¬s.readable → binding_peek s < 0) := by
  obtain ⟨c, r, w, b⟩ := s
  have hb : ¬((b : Int) < 0) := by omega
  cases c <;> cases r <;>
    simp [lua_peek, pipe_peek, binding_peek, hb, Int.natCast_nonneg]

/-- Witness for C4 (amended): an open readable pipe whose writer is gone and
whose buffer is empty peeks 0, not an error. -/
theorem lua_peek_contract_witness :
    lua_peek ⟨true, true, true, 0⟩ = .count 0 :=
  (lua_peek_contract ⟨true, true, true, 0⟩).2.2.2.1 rfl (by decide) rfl rfl

/-- **C6.** For every process-handle teardown (`mt_gc`, part_000 lines
50-55, via `process_detach`, lines 36-42): no Lua error is ever raised —
the only possible effect is a `lua_warning` — and whenever the best-effort
`detach()` fails, the non-fatal zombie warning is emitted. -/
theorem gc_detach_warning (detachOk : Bool) (pid : Nat) :
    (∀ e ∈ mt_gc detachOk pid, ∀ m, e ≠ .raise m) ∧
      (detachOk = false → mt_gc detachOk pid = [.warn (zombieMsg pid)]) ∧
      (detachOk = true → mt_gc detachOk pid = []) ∧
      mt_close detachOk pid = mt_gc detachOk pid := by
  cases detachOk <;> simp [mt_gc, mt_close, process_detach]

/-- Witness for C6: a failed detach on pid 7 warns and raises nothing. -/
theorem gc_detach_warning_witness :
    mt_gc false 7 = [.warn (zombieMsg 7)] :=
  (gc_detach_warning false 7).2.1 rfl

/-- **C7.** For every spawn configuration whose stdout slot resolved to some
non-empty handle — an open file object (duplicated) or a freshly opened pipe
end alike — and whose stderr slot is the string `"stdout"`, the resolved
stderr binding is the very handle resolved for stdout (`cast_stdio`,
part_000 lines 276-281, returns the offered stdout handle when it is
non-empty; `spawn::spawn` line 390 offers `f_stdout`), so both child streams
write to one destination. -/
theorem stderr_alias_stdout (os : OS) (cfg : SpawnCfg) (fh : Nat)
    (hOut : cast_stdio os "stdout" cfg.sOut none = some fh)
    (hErr : cfg.sErr = .str "stdout") :
    (resolve_stdio os cfg).eError = (resolve_stdio os cfg).eOutput ∧
      (resolve_stdio os cfg).eOutput = some fh := by
  simp only [resolve_stdio, hErr, hOut]
  simp [cast_stdio]

/-- Witness for C7: stdout redirected to a fresh pipe (`stdout = true`),
stderr set to `"stdout"`, under `sampleOS` (whose pipe opens as (3, 4); the
child stdout slot takes the write end 4). -/
theorem stderr_alias_stdout_witness :
    (resolve_stdio sampleOS
        { inheritCfg [ArgNode.str "ls"] with
          sOut := .pipeReq, sErr := .str "stdout" }).eError = some 4 ∧
      (resolve_stdio sampleOS
        { inheritCfg [ArgNode.str "ls"] with
          sOut := .pipeReq, sErr := .str "stdout" }).eOutput = some 4 := by
  have h := stderr_alias_stdout sampleOS
    { inheritCfg [ArgNode.str "ls"] with sOut := .pipeReq, sErr := .str "stdout" }
    4 (by simp [cast_stdio, sampleOS]) rfl
  exact ⟨by rw [h.1, h.2], h.2⟩

/-- **C8 counterexample.** The claim's very environment table — override
`FOO` to `"bar"`, delete `BAZ` — handed to the legacy `spawn::cast_env`
(binding_subprocess.cpp lines 181-195): its `lua_next(L, 1)` seeding raises
`invalid key to 'next'`, so the legacy binding never builds the diff that
the claim describes (the one the current binding's `cast_env` produces) —
refuting the claim for the legacy binding it cites. -/
theorem binding_cast_env_counterexample :
    binding_cast_env (some envFooBaz) = .error "invalid key to 'next'" ∧
      binding_cast_env (some envFooBaz) ≠ .ok (cast_env (some envFooBaz)) := by
  constructor
  · simp [binding_cast_env]
  · simp [binding_cast_env]

/-- **C8 (amended).** For every spawn configuration whose `env` table
overrides `FOO` to `"bar"` and deletes a pre-existing parent variable `BAZ`
(`cast_env` of the current binding, part_000 lines 298-314, turns string
values into `set` and others into `del`; the builder release is modelled
from the spec over the parent snapshot): the child environment maps `FOO`
to `bar`, lacks `BAZ`, and agrees with the parent snapshot on every other
variable; being a function of the snapshot alone, it is materialized once,
not a live view.  The legacy binding's `cast_env` instead raises
`invalid key to 'next'` for the same (indeed any) present env table and
never builds the diff. -/
theorem env_diff_spec (parent : String → Option String) (cfg : SpawnCfg)
    (v : String) (henv : cfg.env = some envFooBaz)
    (hbaz : parent "BAZ" = some v) :
    child_env parent cfg "FOO" = some "bar" ∧
      child_env parent cfg "BAZ" = none ∧
      (∀ k, k ≠ "FOO" → k ≠ "BAZ" → child_env parent cfg k = parent k) ∧
      binding_cast_env cfg.env = .error "invalid key to 'next'" := by
  refine ⟨?_, ?_, ?_, ?_⟩
  · simp [child_env, henv, envFooBaz, cast_env, env_apply]
  · simp [child_env, henv, envFooBaz, cast_env, env_apply]
  · intro k hFoo hBaz
    have h1 : (k == "FOO") = false := beq_eq_false_iff_ne.mpr hFoo
    simp [child_env, henv, envFooBaz, cast_env, env_apply, List.lookup, hFoo, hBaz, h1]
  · simp [henv, binding_cast_env]

/-- Witness for C8 (amended): the concrete parent `sampleParent` (which has
`BAZ=old` and `PATH=/bin`): the child has `FOO=bar`, no `BAZ`, and `PATH`
unchanged, while the legacy `cast_env` errors on the same table. -/
theorem env_diff_spec_witness :
    child_env sampleParent { inheritCfg [ArgNode.str "env"] with env := some envFooBaz }
        "FOO" = some "bar" ∧
      child_env sampleParent { inheritCfg [ArgNode.str "env"] with env := some envFooBaz }
        "BAZ" = none ∧
      child_env sampleParent { inheritCfg [ArgNode.str "env"] with env := some envFooBaz }
        "PATH" = some "/bin" ∧
      binding_cast_env (some envFooBaz) = .error "invalid key to 'next'" := by
  have h := env_diff_spec sampleParent
    { inheritCfg [ArgNode.str "env"] with env := some envFooBaz } "old" rfl
    (by simp [sampleParent])
  refine ⟨h.1, h.2.1, ?_, h.2.2.2⟩
  have hp := h.2.2.1 "PATH" (by decide) (by decide)
  rw [hp]
  simp [sampleParent]

/-- **C9.** For every process handle (whatever its cached exit state), the
kill binding with no explicit signal delivers the default `SIGTERM`
(value 15: part_000 line 72, `lua::optinteger<int, SIGTERM>`;
binding_subprocess.cpp line 57, literal 15), and its boolean result is
exactly the OS delivery flag for that request — which ignores the handle's
exit state, i.e. reports delivery, not death. -/
theorem kill_default_sigterm (os : OS) (pid : Nat) (cache : Option Nat) :
    lua_kill os ⟨pid, cache⟩ none = os.delivered pid 15 ∧
      SIGTERM = 15 ∧
      lua_kill os ⟨pid, cache⟩ none = lua_kill os ⟨pid, none⟩ (some SIGTERM) := by
  simp [lua_kill, SIGTERM]

/-- **C10.** For every spawn configuration whose stderr slot is the string
`"stdout"` while the stdout slot resolved to the empty handle: the aliasing
request is ignored — the stderr slot stays unredirected (child inherits the
parent stream) — and the whole spawn behaves exactly as if the stderr field
were absent, so no error is reported (`cast_stdio`, part_000 lines 276-288:
the string case requires a non-empty offered handle, otherwise it falls
through to the default and returns the empty handle). -/
theorem stderr_alias_ignored_when_no_stdout (os : OS) (cfg : SpawnCfg)
    (hOut : cast_stdio os "stdout" cfg.sOut none = none)
    (hErr : cfg.sErr = .str "stdout") :
    (resolve_stdio os cfg).eError = none ∧
      lua_spawn os cfg = lua_spawn os { cfg with sErr := .unset } := by
  have hres : resolve_stdio os cfg = resolve_stdio os { cfg with sErr := .unset } := by
    simp only [resolve_stdio, hErr, hOut]
    simp [cast_stdio]
  constructor
  · simp only [resolve_stdio, hErr, hOut]
    simp [cast_stdio]
  · simp only [lua_spawn, hres]

/-- Witness for C10: stderr set to `"stdout"` with no stdout redirection at
all, under `sampleOS`: stderr stays inherited and the spawn result equals the
plain one. -/
theorem stderr_alias_ignored_when_no_stdout_witness :
    (resolve_stdio sampleOS
        { inheritCfg [ArgNode.str "ls"] with sErr := .str "stdout" }).eError = none ∧
      lua_spawn sampleOS
          { inheritCfg [ArgNode.str "ls"] with sErr := .str "stdout" } =
        lua_spawn sampleOS (inheritCfg [ArgNode.str "ls"]) := by
  have h := stderr_alias_ignored_when_no_stdout sampleOS
    { inheritCfg [ArgNode.str "ls"] with sErr := .str "stdout" } rfl rfl
  exact ⟨h.1, h.2⟩

end BeeSubprocess
